import Mathlib

/-!
Verification of the physical-plan parquet node layer
(`src/daft-plan/src/physical_ops/parquet.rs`): the `TabularScanParquet`
and `TabularWriteParquet` structs, their constructors `new`, and the
derived `Clone`/`Serialize`/`Deserialize` behaviour.

The descriptor types consumed by this layer (`Schema`, `Pushdowns`,
`LegacyExternalInfo`, `PartitionSpec`, `OutputFileInfo`, `PhysicalPlan`)
live in other crates of the repository and are modelled here from the
specification's description of them.  `Arc<T>` is observably the value
`T` it wraps; where a claim is about sharing of the `Arc` handle itself
a second, addressed model (`ArcH`) is used.
-/

/-- Modelled from the spec: a single typed column of a schema
("ordered sequence of typed columns"); `daft-core`'s `Field` is not
under `src/`.  The column type is an opaque code. -/
structure SchemaField where
  name : String
  dtype : Nat
deriving DecidableEq, Repr

/-- Modelled from the spec: `daft-core`'s `Schema` ("ordered sequence of
typed columns the scan must materialize") is not under `src/`. -/
structure Schema where
  fields : List SchemaField
deriving DecidableEq, Repr

/-- Alias `SchemaRef = Arc<Schema>`; observably the schema it wraps. -/
abbrev SchemaRef := Schema

/-- Modelled from the spec: `daft-scan`'s `Pushdowns` ("advisory
filter/limit/projection hints") is not under `src/`.  The filter
expression is an opaque code. -/
structure Pushdowns where
  filters : Option Nat
  columns : Option (List String)
  limit : Option Nat
deriving DecidableEq, Repr

/-- Modelled from the spec: the source-location descriptor
(`LegacyExternalInfo`, "opaque reference to the physical location/format
metadata of the dataset") is not under `src/`. -/
structure LegacyExternalInfo where
  descriptor : Nat
deriving DecidableEq, Repr

/-- The source file's alias `LegacyExternalInfo as ExternalSourceInfo`. -/
abbrev ExternalSourceInfo := LegacyExternalInfo

/-- Modelled from the spec: the partition descriptor ("shared description
of how the table's rows are physically divided") is not under `src/`. -/
structure PartitionSpec where
  descriptor : Nat
deriving DecidableEq, Repr

/-- Modelled from the spec: the output-file descriptor (`OutputFileInfo`,
"destination location, format, and partitioning options") is not under
`src/`. -/
structure OutputFileInfo where
  descriptor : Nat
deriving DecidableEq, Repr

/-- Modelled from the spec: the plan tree ("a recursive structure of
operator nodes; the two node types below are members/leaves of it");
`PhysicalPlan` is not under `src/`.  The two variants defined by the
source file carry exactly the fields of the corresponding structs; all
other operators are collapsed into an opaque variant. -/
inductive PhysicalPlan where
  | tabularScan (projection_schema : SchemaRef) (external_info : ExternalSourceInfo)
      (partition_spec : PartitionSpec) (pushdowns : Pushdowns)
  | tabularWrite (schema : SchemaRef) (file_info : OutputFileInfo) (input : PhysicalPlan)
  | otherOp (id : Nat)
deriving DecidableEq, Repr

/-- Struct `TabularScanParquet` from the source: four public fields.
`Arc<PartitionSpec>` is observably the `PartitionSpec` it wraps. -/
structure TabularScanParquet where
  projection_schema : SchemaRef
  external_info : ExternalSourceInfo
  partition_spec : PartitionSpec
  pushdowns : Pushdowns
deriving DecidableEq, Repr

/-- Constructor `TabularScanParquet::new` from the source: stores the four arguments
as the four fields, nothing else. -/
def TabularScanParquet.new (projection_schema : SchemaRef)
    (external_info : ExternalSourceInfo) (partition_spec : PartitionSpec)
    (pushdowns : Pushdowns) : TabularScanParquet :=
  { projection_schema, external_info, partition_spec, pushdowns }

/-- Struct `TabularWriteParquet` from the source: schema, file
info, and the upstream node `input : Arc<PhysicalPlan>` (observably the
plan it wraps). -/
structure TabularWriteParquet where
  schema : SchemaRef
  file_info : OutputFileInfo
  input : PhysicalPlan
deriving DecidableEq, Repr

/-- Constructor `TabularWriteParquet::new` from the source: stores the three
arguments as the three fields, nothing else. -/
def TabularWriteParquet.new (schema : SchemaRef) (file_info : OutputFileInfo)
    (input : PhysicalPlan) : TabularWriteParquet :=
  { schema, file_info, input }

/-- A pushdown set is consistent with a schema when every column it
names exists in the schema.  The source performs no such check; this
predicate only serves to state that construction succeeds even on
inconsistent inputs. -/
def pushdownsConsistent (pd : Pushdowns) (s : Schema) : Prop :=
  ∀ c ∈ pd.columns.getD [], ∃ f ∈ s.fields, f.name = c

instance (pd : Pushdowns) (s : Schema) : Decidable (pushdownsConsistent pd s) := by
  unfold pushdownsConsistent
  infer_instance

/-- C1: constructing a `TabularScanParquet` via `new` and reading back
each of the four fields returns exactly the argument passed in. -/
theorem scan_new_fields (ps : SchemaRef) (ei : ExternalSourceInfo)
    (sp : PartitionSpec) (pd : Pushdowns) :
    (TabularScanParquet.new ps ei sp pd).projection_schema = ps ∧
    (TabularScanParquet.new ps ei sp pd).external_info = ei ∧
    (TabularScanParquet.new ps ei sp pd).partition_spec = sp ∧
    (TabularScanParquet.new ps ei sp pd).pushdowns = pd :=
  ⟨rfl, rfl, rfl, rfl⟩

/-- C2: constructing a `TabularWriteParquet` via `new` and reading back
`input` yields a value structurally equal to the original argument, and
`schema` and `file_info` equal the arguments passed in. -/
theorem write_new_fields (s : SchemaRef) (fi : OutputFileInfo) (inp : PhysicalPlan) :
    (TabularWriteParquet.new s fi inp).input = inp ∧
    (TabularWriteParquet.new s fi inp).schema = s ∧
    (TabularWriteParquet.new s fi inp).file_info = fi :=
  ⟨rfl, rfl, rfl⟩

/-- C3: both constructors are total.  Even for semantically inconsistent
arguments — pushdown columns absent from the schema — `new` performs no
validation and returns the fully populated node; no error value exists
at this layer. -/
theorem constructors_total (ps : SchemaRef) (ei : ExternalSourceInfo)
    (sp : PartitionSpec) (pd : Pushdowns) (s : SchemaRef) (fi : OutputFileInfo)
    (inp : PhysicalPlan) (h : ¬ pushdownsConsistent pd ps) :
    TabularScanParquet.new ps ei sp pd =
      { projection_schema := ps, external_info := ei,
        partition_spec := sp, pushdowns := pd } ∧
    TabularWriteParquet.new s fi inp =
      { schema := s, file_info := fi, input := inp } :=
  ⟨rfl, rfl⟩

/-- Witness for C3 at a concrete inconsistent input: the pushdown names
column "b" which the projection schema (single column "a") lacks, and
construction still returns the populated node. -/
theorem constructors_total_witness :
    (¬ pushdownsConsistent ⟨none, some ["b"], none⟩ ⟨[⟨"a", 0⟩]⟩) ∧
    TabularScanParquet.new ⟨[⟨"a", 0⟩]⟩ ⟨0⟩ ⟨0⟩ ⟨none, some ["b"], none⟩ =
      { projection_schema := ⟨[⟨"a", 0⟩]⟩, external_info := ⟨0⟩,
        partition_spec := ⟨0⟩, pushdowns := ⟨none, some ["b"], none⟩ } :=
  ⟨by decide,
   (constructors_total ⟨[⟨"a", 0⟩]⟩ ⟨0⟩ ⟨0⟩ ⟨none, some ["b"], none⟩
      ⟨[]⟩ ⟨0⟩ (.otherOp 0) (by decide)).1⟩

/-- Modelled from the spec: the structured serialization format ("lossless
structured serialization/deserialization"); the derived serde
implementation is not under `src/`.  A tree of primitive values; lists
are encoded as right-nested pairs terminated by `vnil`. -/
inductive SerValue where
  | vnat : Nat → SerValue
  | vstr : String → SerValue
  | vnone : SerValue
  | vsome : SerValue → SerValue
  | vnil : SerValue
  | vpair : SerValue → SerValue → SerValue
deriving DecidableEq, Repr

def serializeField (f : SchemaField) : SerValue :=
  .vpair (.vstr f.name) (.vnat f.dtype)

def deserializeField : SerValue → Option SchemaField
  | .vpair (.vstr n) (.vnat d) => some ⟨n, d⟩
  | _ => none

def serializeFields : List SchemaField → SerValue
  | [] => .vnil
  | f :: fs => .vpair (serializeField f) (serializeFields fs)

def deserializeFields : SerValue → Option (List SchemaField)
  | .vnil => some []
  | .vpair v rest => do
      let f ← deserializeField v
      let fs ← deserializeFields rest
      pure (f :: fs)
  | _ => none

def serializeSchema (s : Schema) : SerValue := serializeFields s.fields

def deserializeSchema (v : SerValue) : Option Schema :=
  (deserializeFields v).map Schema.mk

def serializeStrs : List String → SerValue
  | [] => .vnil
  | s :: ss => .vpair (.vstr s) (serializeStrs ss)

def deserializeStrs : SerValue → Option (List String)
  | .vnil => some []
  | .vpair (.vstr s) rest => do
      let ss ← deserializeStrs rest
      pure (s :: ss)
  | _ => none

def serializeOptNat : Option Nat → SerValue
  | none => .vnone
  | some n => .vsome (.vnat n)

def deserializeOptNat : SerValue → Option (Option Nat)
  | .vnone => some none
  | .vsome (.vnat n) => some (some n)
  | _ => none

def serializeOptStrs : Option (List String) → SerValue
  | none => .vnone
  | some ss => .vsome (serializeStrs ss)

def deserializeOptStrs : SerValue → Option (Option (List String))
  | .vnone => some none
  | .vsome v => (deserializeStrs v).map some
  | _ => none

def serializePushdowns (pd : Pushdowns) : SerValue :=
  .vpair (serializeOptNat pd.filters)
    (.vpair (serializeOptStrs pd.columns) (serializeOptNat pd.limit))

def deserializePushdowns : SerValue → Option Pushdowns
  | .vpair f (.vpair c l) => do
      let fv ← deserializeOptNat f
      let cv ← deserializeOptStrs c
      let lv ← deserializeOptNat l
      pure ⟨fv, cv, lv⟩
  | _ => none

/-- Field-wise serialization of `TabularScanParquet`, as the serde
derive produces: each of the four fields in declaration order,
`Arc`-wrapped fields serialized as their contents. -/
def serializeScan (x : TabularScanParquet) : SerValue :=
  .vpair (serializeSchema x.projection_schema)
    (.vpair (.vnat x.external_info.descriptor)
      (.vpair (.vnat x.partition_spec.descriptor)
        (serializePushdowns x.pushdowns)))

def deserializeScan : SerValue → Option TabularScanParquet
  | .vpair sch (.vpair (.vnat e) (.vpair (.vnat p) pd)) => do
      let s ← deserializeSchema sch
      let pdv ← deserializePushdowns pd
      pure ⟨s, ⟨e⟩, ⟨p⟩, pdv⟩
  | _ => none

theorem deserializeField_serializeField (f : SchemaField) :
    deserializeField (serializeField f) = some f := rfl

theorem deserializeFields_serializeFields (fs : List SchemaField) :
    deserializeFields (serializeFields fs) = some fs := by
  induction fs with
  | nil => rfl
  | cons f fs ih =>
      simp [serializeFields, deserializeFields,
        deserializeField_serializeField, ih]

theorem deserializeSchema_serializeSchema (s : Schema) :
    deserializeSchema (serializeSchema s) = some s := by
  simp [serializeSchema, deserializeSchema, deserializeFields_serializeFields]

theorem deserializeStrs_serializeStrs (ss : List String) :
    deserializeStrs (serializeStrs ss) = some ss := by
  induction ss with
  | nil => rfl
  | cons s ss ih => simp [serializeStrs, deserializeStrs, ih]

theorem deserializeOptNat_serializeOptNat (o : Option Nat) :
    deserializeOptNat (serializeOptNat o) = some o := by
  cases o <;> rfl

theorem deserializeOptStrs_serializeOptStrs (o : Option (List String)) :
    deserializeOptStrs (serializeOptStrs o) = some o := by
  cases o with
  | none => rfl
  | some ss => simp [serializeOptStrs, deserializeOptStrs, deserializeStrs_serializeStrs]

theorem deserializePushdowns_serializePushdowns (pd : Pushdowns) :
    deserializePushdowns (serializePushdowns pd) = some pd := by
  cases pd with
  | mk f c l =>
      simp [serializePushdowns, deserializePushdowns,
        deserializeOptNat_serializeOptNat, deserializeOptStrs_serializeOptStrs]

/-- C4: serializing a `TabularScanParquet` and deserializing the result
reproduces a structurally equal node, for every node — in particular for
schemas with 0, 1, or N columns and for empty or fully populated
pushdowns. -/
theorem scan_serde_roundtrip (x : TabularScanParquet) :
    deserializeScan (serializeScan x) = some x := by
  cases x with
  | mk ps ei sp pd =>
      cases ei; cases sp
      simp [serializeScan, deserializeScan,
        deserializeSchema_serializeSchema, deserializePushdowns_serializePushdowns]

/-- C6: two `TabularScanParquet` values built from field-wise-equal
arguments compare equal, and values built from arguments differing in
any single field are unequal (the equality is exactly field-wise); the
same law holds for `TabularWriteParquet` over its three fields. -/
theorem node_eq_iff_fields (ps psx : SchemaRef) (ei eix : ExternalSourceInfo)
    (sp spx : PartitionSpec) (pd pdx : Pushdowns) (s sx : SchemaRef)
    (fi fix : OutputFileInfo) (inp inpx : PhysicalPlan) :
    (TabularScanParquet.new ps ei sp pd = TabularScanParquet.new psx eix spx pdx ↔
      ps = psx ∧ ei = eix ∧ sp = spx ∧ pd = pdx) ∧
    (TabularWriteParquet.new s fi inp = TabularWriteParquet.new sx fix inpx ↔
      s = sx ∧ fi = fix ∧ inp = inpx) := by
  constructor <;> simp [TabularScanParquet.new, TabularWriteParquet.new,
    TabularScanParquet.mk.injEq, TabularWriteParquet.mk.injEq]

/-- The `Clone` implementation the source derives for
`TabularScanParquet`: every field is cloned; cloning an `Arc` or a plain
descriptor observably yields the value itself. -/
def TabularScanParquet.clone (x : TabularScanParquet) : TabularScanParquet :=
  ⟨x.projection_schema, x.external_info, x.partition_spec, x.pushdowns⟩

/-- The `Clone` implementation the source derives for
`TabularWriteParquet`. -/
def TabularWriteParquet.clone (x : TabularWriteParquet) : TabularWriteParquet :=
  ⟨x.schema, x.file_info, x.input⟩

/-- The collection of node values constructed so far at this layer. -/
structure PlanWorld where
  scans : List TabularScanParquet
  writes : List TabularWriteParquet
deriving DecidableEq, Repr

/-- The operations this layer exposes: the two constructors, the derived
clones, and (read-only) serialization of a stored node. -/
inductive LayerOp where
  | scanNew (ps : SchemaRef) (ei : ExternalSourceInfo) (sp : PartitionSpec) (pd : Pushdowns)
  | writeNew (s : SchemaRef) (fi : OutputFileInfo) (inp : PhysicalPlan)
  | cloneScan (i : Nat)
  | cloneWrite (i : Nat)
  | serializeScanAt (i : Nat)
deriving DecidableEq, Repr

/-- Effect of a layer operation on the constructed nodes: constructors
and clones append a new value, serialization reads only.  No operation
writes to an existing node. -/
def applyOp : LayerOp → PlanWorld → PlanWorld
  | .scanNew ps ei sp pd, w => ⟨w.scans ++ [TabularScanParquet.new ps ei sp pd], w.writes⟩
  | .writeNew s fi inp, w => ⟨w.scans, w.writes ++ [TabularWriteParquet.new s fi inp]⟩
  | .cloneScan i, w =>
      match w.scans[i]? with
      | some n => ⟨w.scans ++ [n.clone], w.writes⟩
      | none => w
  | .cloneWrite i, w =>
      match w.writes[i]? with
      | some n => ⟨w.scans, w.writes ++ [n.clone]⟩
      | none => w
  | .serializeScanAt _, w => w

/-- C7: nodes are immutable after construction.  Every operation the
layer exposes leaves every previously constructed node exactly as it
was: the prior lists of scan and write nodes survive unchanged as
prefixes, new values only being appended. -/
theorem ops_never_mutate (op : LayerOp) (w : PlanWorld) :
    (applyOp op w).scans.take w.scans.length = w.scans ∧
    (applyOp op w).writes.take w.writes.length = w.writes := by
  cases op with
  | scanNew ps ei sp pd => exact ⟨List.take_left .., List.take_length ..⟩
  | writeNew s fi inp => exact ⟨List.take_length .., List.take_left ..⟩
  | cloneScan i =>
      cases h : w.scans[i]? with
      | none => simp [applyOp, h, List.take_length]
      | some n => simp [applyOp, h, List.take_left, List.take_length]
  | cloneWrite i =>
      cases h : w.writes[i]? with
      | none => simp [applyOp, h, List.take_length]
      | some n => simp [applyOp, h, List.take_left, List.take_length]
  | serializeScanAt i => exact ⟨List.take_length .., List.take_length ..⟩

/-- Plan-tree view of a constructed scan node. -/
def TabularScanParquet.toPlan (x : TabularScanParquet) : PhysicalPlan :=
  .tabularScan x.projection_schema x.external_info x.partition_spec x.pushdowns

/-- Plan-tree view of a constructed write node. -/
def TabularWriteParquet.toPlan (x : TabularWriteParquet) : PhysicalPlan :=
  .tabularWrite x.schema x.file_info x.input

/-- The upstream plan nodes an operator holds a reference to, read off
the structure of each variant: only `tabularWrite` carries a plan-typed
field (`input`). -/
def PhysicalPlan.children : PhysicalPlan → List PhysicalPlan
  | .tabularScan _ _ _ _ => []
  | .tabularWrite _ _ i => [i]
  | .otherOp _ => []

/-- C8: a constructed `TabularScanParquet` is a leaf — it contains no
reference to any other plan node; a constructed `TabularWriteParquet` is
unary — it contains exactly one upstream reference, its `input`. -/
theorem scan_leaf_write_unary (ps : SchemaRef) (ei : ExternalSourceInfo)
    (sp : PartitionSpec) (pd : Pushdowns) (s : SchemaRef) (fi : OutputFileInfo)
    (inp : PhysicalPlan) :
    (TabularScanParquet.new ps ei sp pd).toPlan.children = [] ∧
    (TabularWriteParquet.new s fi inp).toPlan.children = [inp] ∧
    (TabularWriteParquet.new s fi inp).toPlan.children.length = 1 :=
  ⟨rfl, rfl, rfl⟩

/-- Modelled from the spec: `std::sync::Arc` (not under `src/`) as an
addressed handle, for the claims about sharing of one instance between
several parents ("reference-counted or equivalently managed handle").
Two handles denote the same instance exactly when their addresses
coincide. -/
structure ArcH (α : Type) where
  addr : Nat
  val : α
deriving DecidableEq, Repr

/-- Clone of an `Arc`: a shallow copy — the same address, hence the same
instance; nothing is duplicated. -/
def ArcH.clone {α : Type} (a : ArcH α) : ArcH α := a

/-- Handle-level view of `TabularScanParquet`, with the `Arc`-typed
fields of the source (`projection_schema : SchemaRef`,
`partition_spec : Arc<PartitionSpec>`) kept as addressed handles. -/
structure TabularScanParquetH where
  projection_schema : ArcH Schema
  external_info : ExternalSourceInfo
  partition_spec : ArcH PartitionSpec
  pushdowns : Pushdowns
deriving DecidableEq, Repr

/-- Constructor `TabularScanParquet::new` at the handle level. -/
def TabularScanParquetH.new (ps : ArcH Schema) (ei : ExternalSourceInfo)
    (sp : ArcH PartitionSpec) (pd : Pushdowns) : TabularScanParquetH :=
  ⟨ps, ei, sp, pd⟩

/-- The derived `Clone` at the handle level: each field is cloned, the
`Arc` fields shallowly. -/
def TabularScanParquetH.clone (x : TabularScanParquetH) : TabularScanParquetH :=
  ⟨x.projection_schema.clone, x.external_info, x.partition_spec.clone, x.pushdowns⟩

/-- Handle-level view of `TabularWriteParquet`, with
`schema : SchemaRef` and `input : Arc<PhysicalPlan>` kept as addressed
handles. -/
structure TabularWriteParquetH where
  schema : ArcH Schema
  file_info : OutputFileInfo
  input : ArcH PhysicalPlan
deriving DecidableEq, Repr

/-- Constructor `TabularWriteParquet::new` at the handle level. -/
def TabularWriteParquetH.new (s : ArcH Schema) (fi : OutputFileInfo)
    (inp : ArcH PhysicalPlan) : TabularWriteParquetH :=
  ⟨s, fi, inp⟩

/-- The derived `Clone` at the handle level. -/
def TabularWriteParquetH.clone (x : TabularWriteParquetH) : TabularWriteParquetH :=
  ⟨x.schema.clone, x.file_info, x.input.clone⟩

/-- C10: both node types implement `Clone`; a clone is field-wise equal
to the original (`clone x = x`), and cloning is shallow with respect to
the shared fields — the clone's `partition_spec` and `input` carry the
same address as the original, i.e. refer to the same shared instance
rather than a deep copy. -/
theorem clone_shallow_eq (x : TabularScanParquet) (y : TabularWriteParquet)
    (xh : TabularScanParquetH) (yh : TabularWriteParquetH) :
    x.clone = x ∧ y.clone = y ∧
    xh.clone = xh ∧ yh.clone = yh ∧
    xh.clone.partition_spec.addr = xh.partition_spec.addr ∧
    xh.clone.projection_schema.addr = xh.projection_schema.addr ∧
    yh.clone.input.addr = yh.input.addr :=
  ⟨rfl, rfl, rfl, rfl, rfl, rfl, rfl⟩

/-- Modelled from the spec: the count of live references to one shared
instance ("releasing the subtree only when its last reference is
dropped"; `Arc`'s counter is not under `src/`).  The instance starts
with one reference; each clone adds one, each drop removes one. -/
def rcCount (clones drops : Nat) : Nat := 1 + clones - drops

/-- The shared instance is released exactly when no reference to it
remains. -/
def rcReleased (clones drops : Nat) : Prop := rcCount clones drops = 0

instance (c d : Nat) : Decidable (rcReleased c d) := by
  unfold rcReleased
  infer_instance

/-- C9: `input` and `partition_spec` are held by shared, reference
counted ownership: two write nodes built from clones of one handle both
reference the single original instance (same address, nothing
duplicated), a scan node built from a clone of a partition handle
likewise, and as long as some reference remains undropped the instance
is not released — it is released exactly after the last of its
`1 + clones` references is dropped. -/
theorem shared_ownership (a : ArcH PhysicalPlan) (b : ArcH PartitionSpec)
    (s1 s2 : ArcH Schema) (f1 f2 : OutputFileInfo) (ps : ArcH Schema)
    (ei : ExternalSourceInfo) (pd : Pushdowns) (clones drops : Nat)
    (h : drops ≤ clones) :
    (TabularWriteParquetH.new s1 f1 a.clone).input = a ∧
    (TabularWriteParquetH.new s2 f2 a.clone).input.addr =
      (TabularWriteParquetH.new s1 f1 a.clone).input.addr ∧
    (TabularScanParquetH.new ps ei b.clone pd).partition_spec.addr = b.addr ∧
    ¬ rcReleased clones drops ∧
    rcReleased clones (clones + 1) := by
  refine ⟨rfl, rfl, rfl, ?_, ?_⟩
  · unfold rcReleased rcCount
    omega
  · unfold rcReleased rcCount
    omega

/-- Witness for C9 at a concrete input: one handle, two clones handed to
two write nodes, one drop — with one drop against two clones the
instance is not released, and it is released after all three references
are dropped. -/
theorem shared_ownership_witness :
    (1 : Nat) ≤ 2 ∧ ¬ rcReleased 2 1 ∧ rcReleased 2 (2 + 1) :=
  ⟨by decide,
   (shared_ownership ⟨5, .otherOp 0⟩ ⟨6, ⟨0⟩⟩ ⟨0, ⟨[]⟩⟩ ⟨1, ⟨[]⟩⟩ ⟨0⟩ ⟨1⟩
      ⟨2, ⟨[]⟩⟩ ⟨0⟩ ⟨none, none, none⟩ 2 1 (by decide)).2.2.2⟩

/-- Modelled from the spec: serialization of the plan tree (the derived
serde implementations of `PhysicalPlan` and its operators are not under
`src/`); each variant is a tagged tuple of its fields, `Arc`-wrapped
children serialized inline as their contents. -/
def serializePlan : PhysicalPlan → SerValue
  | .tabularScan ps ei sp pd =>
      .vpair (.vnat 0)
        (.vpair (serializeSchema ps)
          (.vpair (.vnat ei.descriptor)
            (.vpair (.vnat sp.descriptor) (serializePushdowns pd))))
  | .tabularWrite s fi i =>
      .vpair (.vnat 1)
        (.vpair (serializeSchema s)
          (.vpair (.vnat fi.descriptor) (serializePlan i)))
  | .otherOp n => .vpair (.vnat 2) (.vnat n)

def deserializePlan : SerValue → Option PhysicalPlan
  | .vpair (.vnat 0) (.vpair sch (.vpair (.vnat e) (.vpair (.vnat p) pd))) => do
      let s ← deserializeSchema sch
      let pdv ← deserializePushdowns pd
      pure (.tabularScan s ⟨e⟩ ⟨p⟩ pdv)
  | .vpair (.vnat 1) (.vpair sch (.vpair (.vnat f) inp)) => do
      let s ← deserializeSchema sch
      let i ← deserializePlan inp
      pure (.tabularWrite s ⟨f⟩ i)
  | .vpair (.vnat 2) (.vnat n) => some (.otherOp n)
  | _ => none

theorem deserializePlan_serializePlan (p : PhysicalPlan) :
    deserializePlan (serializePlan p) = some p := by
  induction p with
  | tabularScan ps ei sp pd =>
      cases ei; cases sp
      simp [serializePlan, deserializePlan,
        deserializeSchema_serializeSchema, deserializePushdowns_serializePushdowns]
  | tabularWrite s fi i ih =>
      cases fi
      simp [serializePlan, deserializePlan,
        deserializeSchema_serializeSchema, ih]
  | otherOp n => rfl

/-- Serialization of a write node at the handle level, as the serde
derive with the `rc` feature produces it: the `Arc`-wrapped `schema` and
`input` are serialized inline as their contents; the handle's identity
(address) is not part of the format. -/
def serializeWriteH (w : TabularWriteParquetH) : SerValue :=
  .vpair (serializeSchema w.schema.val)
    (.vpair (.vnat w.file_info.descriptor) (serializePlan w.input.val))

/-- Deserialization of a write node: every `Arc` occurrence is rebuilt
as a fresh allocation; `fresh` is the next unused address and the
returned counter accounts for the two allocations performed. -/
def deserializeWriteH (v : SerValue) (fresh : Nat) :
    Option (TabularWriteParquetH × Nat) :=
  match v with
  | .vpair sch (.vpair (.vnat f) inp) => do
      let s ← deserializeSchema sch
      let i ← deserializePlan inp
      pure (⟨⟨fresh, s⟩, ⟨f⟩, ⟨fresh + 1, i⟩⟩, fresh + 2)
  | _ => none

/-- A serialized plan holding two write nodes (e.g. one computed subtree
written to two destinations). -/
def serializePlanPair (a b : TabularWriteParquetH) : SerValue :=
  .vpair (serializeWriteH a) (serializeWriteH b)

def deserializePlanPair (v : SerValue) (fresh : Nat) :
    Option (TabularWriteParquetH × TabularWriteParquetH × Nat) :=
  match v with
  | .vpair x y => do
      let a ← deserializeWriteH x fresh
      let b ← deserializeWriteH y a.2
      pure (a.1, b.1, b.2)
  | _ => none

theorem deserializeWriteH_serializeWriteH (w : TabularWriteParquetH) (n : Nat) :
    deserializeWriteH (serializeWriteH w) n =
      some (⟨⟨n, w.schema.val⟩, w.file_info, ⟨n + 1, w.input.val⟩⟩, n + 2) := by
  cases w with
  | mk s fi i =>
      cases fi
      simp [serializeWriteH, deserializeWriteH,
        deserializeSchema_serializeSchema, deserializePlan_serializePlan]

/-- C5 counterexample: two write nodes share one `input` instance
(both handles carry address 5); after a serialization round trip of the
pair the two rebuilt `input` references live at distinct fresh addresses
101 and 103 — the sharing is not preserved, the subtree is duplicated. -/
theorem write_roundtrip_sharing_cex :
    (TabularWriteParquetH.new ⟨1, ⟨[]⟩⟩ ⟨2⟩
        (ArcH.clone (⟨5, .otherOp 7⟩ : ArcH PhysicalPlan))).input.addr =
      (TabularWriteParquetH.new ⟨3, ⟨[]⟩⟩ ⟨4⟩
        (ArcH.clone (⟨5, .otherOp 7⟩ : ArcH PhysicalPlan))).input.addr ∧
    deserializePlanPair
        (serializePlanPair
          (TabularWriteParquetH.new ⟨1, ⟨[]⟩⟩ ⟨2⟩
            (ArcH.clone (⟨5, .otherOp 7⟩ : ArcH PhysicalPlan)))
          (TabularWriteParquetH.new ⟨3, ⟨[]⟩⟩ ⟨4⟩
            (ArcH.clone (⟨5, .otherOp 7⟩ : ArcH PhysicalPlan)))) 100 =
      some (⟨⟨100, ⟨[]⟩⟩, ⟨2⟩, ⟨101, .otherOp 7⟩⟩,
            ⟨⟨102, ⟨[]⟩⟩, ⟨4⟩, ⟨103, .otherOp 7⟩⟩, 104) ∧
    (101 : Nat) ≠ 103 :=
  ⟨rfl, by decide, by decide⟩

/-- C5 amended: a serialization round trip of a pair of write nodes
rebuilds every observable field — schema contents, file info, and the
full `input` subtree — but allocates fresh, pairwise distinct addresses
for every `Arc` occurrence: references that shared one instance before
the trip denote equal but distinct instances after it. -/
theorem write_roundtrip_observable (a b : TabularWriteParquetH) (n : Nat) :
    deserializePlanPair (serializePlanPair a b) n =
      some (⟨⟨n, a.schema.val⟩, a.file_info, ⟨n + 1, a.input.val⟩⟩,
            ⟨⟨n + 2, b.schema.val⟩, b.file_info, ⟨n + 3, b.input.val⟩⟩, n + 4) ∧
    n + 1 ≠ n + 3 := by
  refine ⟨?_, by omega⟩
  simp [serializePlanPair, deserializePlanPair, deserializeWriteH_serializeWriteH]
